import Mathlib

/-!
Verification of the photo upload / face-tagging pipeline of the `dumpy`
repository.

The definitions below are a shallow embedding of the pipeline code:

* `FaceMatch`, `MultiFaceResult`, `IdentifyMultiResponse` embed the typed
  response structures of `apiClient.ts`.
* `computeTaggedUsers` embeds the threshold-filter / `Set`-deduplication
  loop of `uploadAndTagPhoto` (upload-service module, step 3/4).
* `uploadAndTagPhoto` embeds the four-step orchestration over an explicit
  environment `Env` recording the outcome of each external call, together
  with an `Effects` record of the store operations it performed.
* `uploadAndTagPhotoBatch` embeds the sequential batch wrapper.
* `timedPutBlob` embeds the blob PUT helper of `azureStorage.ts`.
* `Json`, `normalizeFace`, `normalizeResponse`, `identifyMultiFacesGrouped`
  embed the response-shape normalization of `identifyMultiFacesGrouped`
  in `apiClient.ts`.

Network effects are modelled by passing each external call's outcome in
explicitly (`Except String _`): the pipeline itself is deterministic
sequential control flow over those outcomes.
-/

namespace Dumpy

/-- A candidate match for one detected face (`FaceMatch` in apiClient.ts). -/
structure FaceMatch where
  user_id : Int
  similarity : ℚ
  embedding_id : Option String
  deriving DecidableEq, Repr

/-- One detected face with its candidate matches
(`MultiFaceResult` in apiClient.ts). -/
structure MultiFaceResult where
  face_index : Nat
  box : List ℚ
  probability : ℚ
  «matches» : List FaceMatch
  deriving DecidableEq, Repr

/-- The normalized identification response
(`IdentifyMultiResponse` in apiClient.ts). -/
structure IdentifyMultiResponse where
  faces : List MultiFaceResult
  total_faces : Nat
  deriving DecidableEq, Repr

/-- Result returned by the orchestrator (`UploadPhotoResult`). -/
structure UploadPhotoResult where
  mediaId : String
  fileUrl : String
  taggedUsers : List Int
  faceCount : Nat
  deriving DecidableEq, Repr

/-- The optional face-recognition configuration
(`UploadPhotoOptions.faceRecognitionOptions`). -/
structure FaceRecognitionOptions where
  threshold : Option ℚ
  autoEnroll : Option Bool
  autoEnrollMinSimilarity : Option ℚ
  exclusiveAssignment : Option Bool
  deriving DecidableEq, Repr

/-- Options to the orchestrator (`UploadPhotoOptions`); the EXIF map is a
string-keyed mapping. -/
structure UploadPhotoOptions where
  eventId : Int
  userId : Int
  location : Option String
  exifData : Option (List (String × String))
  faceRecognitionOptions : Option FaceRecognitionOptions
  deriving DecidableEq, Repr

/-- The similarity threshold actually used by `uploadAndTagPhoto`:
`faceRecognitionOptions.threshold ?? 0.6` (with `faceRecognitionOptions`
defaulting to the empty object). -/
def resolvedThreshold (options : UploadPhotoOptions) : ℚ :=
  match options.faceRecognitionOptions with
  | some fro => fro.threshold.getD (3 / 5)
  | none => 3 / 5

/-- JS `Set.add` followed eventually by `Array.from`: insertion-ordered
insert-if-absent. -/
def insertUnique (l : List Int) (x : Int) : List Int :=
  if x ∈ l then l else l ++ [x]

/-- Inner `forEach` of the user-id extraction loop: fold the matches of one
face into the accumulator, keeping those at or above the threshold. -/
def addMatches (threshold : ℚ) (acc : List Int) (ms : List FaceMatch) : List Int :=
  ms.foldl (fun a m => if threshold ≤ m.similarity then insertUnique a m.user_id else a) acc

/-- The user-id extraction of `uploadAndTagPhoto` step 3: for every face, for
every match with `similarity >= threshold`, add `user_id` to a `Set`; then
`Array.from` it (order of first insertion). -/
def computeTaggedUsers (faces : List MultiFaceResult) (threshold : ℚ) : List Int :=
  faces.foldl (fun a face => addMatches threshold a face.«matches») []

/-- A value of a column in the Supabase `media` insert payload. -/
inductive DbValue where
  | int (i : Int)
  | str (s : String)
  | intList (l : List Int)
  | exifMap (m : List (String × String))
  deriving DecidableEq, Repr

/-- The object literal passed to `supabase.from('media').insert({...})` in
`uploadAndTagPhoto` step 2, field for field. -/
def insertPayload (options : UploadPhotoOptions) (fileUrl : String) :
    List (String × DbValue) :=
  [("event_id", DbValue.int options.eventId),
   ("file_url", DbValue.str fileUrl),
   ("file_type", DbValue.str "image"),
   ("location", DbValue.str (options.location.getD "")),
   ("uploaded_by", DbValue.int options.userId),
   ("tagged_users", DbValue.intList [])]

/-- Response of the backend proxy upload `fetch` (`resp.ok` plus the `url`
field of its JSON body). -/
structure ProxyResp where
  ok : Bool
  url : String
  deriving DecidableEq, Repr

/-- The row returned by the Supabase insert (`mediaData`). -/
structure MediaData where
  media_id : String
  deriving DecidableEq, Repr

/-- Outcomes of the external calls the orchestrator makes, passed in
explicitly.  `Except.error` stands for a thrown error / rejected promise
(or, for `insertResult`, a returned Supabase error). -/
structure Env where
  proxyResp : Except String ProxyResp
  directUpload : Except String String
  insertResult : Except String MediaData
  identifyResult : Except String IdentifyMultiResponse
  updateResult : Except String Unit
  deriving Repr

/-- Store operations performed by one `uploadAndTagPhoto` run:
the insert payload sent (if step 2 was reached), whether a media record now
exists, and the `tagged_users` update sent (if step 4 sent one). -/
structure Effects where
  insertSent : Option (List (String × DbValue))
  recordCreated : Bool
  updateSent : Option (List Int)
  deriving DecidableEq, Repr

/-- Step 1 of `uploadAndTagPhoto`: POST to the backend proxy; on a non-ok
response fall back to `uploadToAzureBlob`; a rejected proxy fetch
propagates.  Produces the final `fileUrl`. -/
def uploadStep (env : Env) : Except String String :=
  match env.proxyResp with
  | Except.error e => Except.error e
  | Except.ok r => if r.ok then Except.ok r.url else env.directUpload

/-- The orchestrator `uploadAndTagPhoto` (upload-service module):
upload, insert media record, identify faces (non-fatal on failure),
threshold-filter and deduplicate, update tags (non-empty only, failure
ignored).  Returns the caller-visible result and the store effects. -/
def uploadAndTagPhoto (env : Env) (options : UploadPhotoOptions) :
    Except String UploadPhotoResult × Effects :=
  match uploadStep env with
  | Except.error e => (Except.error e, ⟨none, false, none⟩)
  | Except.ok fileUrl =>
    match env.insertResult with
    | Except.error e =>
        (Except.error ("Failed to create media record: " ++ e),
         ⟨some (insertPayload options fileUrl), false, none⟩)
    | Except.ok mediaData =>
      match env.identifyResult with
      | Except.error _ =>
          -- face recognition failed: logged, photo saved untagged
          (Except.ok ⟨mediaData.media_id, fileUrl, [], 0⟩,
           ⟨some (insertPayload options fileUrl), true, none⟩)
      | Except.ok faceResult =>
          let faceCount := faceResult.total_faces
          let taggedUsers := computeTaggedUsers faceResult.faces (resolvedThreshold options)
          let updateSent := if taggedUsers.length > 0 then some taggedUsers else none
          -- the update's own outcome (env.updateResult) is only logged
          (Except.ok ⟨mediaData.media_id, fileUrl, taggedUsers, faceCount⟩,
           ⟨some (insertPayload options fileUrl), true, updateSent⟩)

/-- The sequential batch wrapper `uploadAndTagPhotoBatch`: one environment
per image, processed in order; a failed image is caught and skipped. -/
def uploadAndTagPhotoBatch (envs : List Env) (options : UploadPhotoOptions) :
    List UploadPhotoResult :=
  envs.foldl
    (fun results env =>
      match (uploadAndTagPhoto env options).1 with
      | Except.ok r => results ++ [r]
      | Except.error _ => results)
    []

/-- Result of the blob upload client (`UploadResult` in azureStorage.ts). -/
structure UploadResult where
  url : String
  fileName : String
  deriving DecidableEq, Repr

/-- Response of the `FileSystem.uploadAsync` PUT in `timedPutBlob`. -/
structure PutResponse where
  status : Nat
  body : String
  deriving DecidableEq, Repr

/-- `timedPutBlob` in azureStorage.ts: check the local file exists, PUT the
blob, succeed exactly on HTTP 201, otherwise throw with the service's
status and body. -/
def timedPutBlob (fileExists : Bool) (resp : PutResponse)
    (blobUrl blobName localUri : String) : Except String UploadResult :=
  if fileExists = false then
    Except.error ("File does not exist at URI: " ++ localUri)
  else if resp.status ≠ 201 then
    Except.error ("Azure upload failed with status " ++ toString resp.status
      ++ ": " ++ resp.body)
  else
    Except.ok ⟨blobUrl, blobName⟩

/-- Untyped JSON values as produced by `response.json()`; `undef` models the
JS `undefined` produced by a missing-property access. -/
inductive Json where
  | null
  | undef
  | bool (b : Bool)
  | num (q : ℚ)
  | str (s : String)
  | arr (elems : List Json)
  | obj (fields : List (String × Json))

/-- First binding of a key in a JS object literal. -/
def lookupField : List (String × Json) → String → Option Json
  | [], _ => none
  | (k, v) :: rest, key => if k = key then some v else lookupField rest key

/-- `j?.k`-style safe field access: `none` when `j` is not an object or the
field is absent. -/
def Json.getField : Json → String → Option Json
  | Json.obj fields, key => lookupField fields key
  | _, _ => none

/-- `m?.k` as an expression value: JS yields `undefined` when absent. -/
def Json.getD (j : Json) (key : String) : Json :=
  (j.getField key).getD Json.undef

/-- The object built for one entry of a `results` array:
`{ user_id: m?.user_id, similarity: m?.similarity, embedding_id: m?.embedding_id }`. -/
def normalizeMatchFromResult (m : Json) : Json :=
  Json.obj [("user_id", m.getD "user_id"),
            ("similarity", m.getD "similarity"),
            ("embedding_id", m.getD "embedding_id")]

/-- A normalized face as built by `identifyMultiFacesGrouped`: index, box,
probability, and the matches array (kept as JSON values, since the
`matches`-shaped input is passed through verbatim). -/
structure NormFace where
  face_index : Nat
  box : List Json
  probability : ℚ
  «matches» : List Json

/-- Normalization of one raw face object `f` at position `idx`:
`box` if it is an array else `[]`; `prob` if numeric, else `probability` if
numeric, else `0`; matches from `results` (reshaped) if it is an array,
else from `matches` if it is an array, else `[]`. -/
def normalizeFace (idx : Nat) (f : Json) : NormFace :=
  { face_index := idx
    box := match f.getField "box" with
      | some (Json.arr xs) => xs
      | _ => []
    probability := match f.getField "prob" with
      | some (Json.num q) => q
      | _ => match f.getField "probability" with
        | some (Json.num q) => q
        | _ => 0
    «matches» := match f.getField "results" with
      | some (Json.arr rs) => rs.map normalizeMatchFromResult
      | _ => match f.getField "matches" with
        | some (Json.arr ms) => ms
        | _ => [] }

/-- `rawFaces.map((f, idx) => ...)`: normalize each face with its position. -/
def normalizeFaces : Nat → List Json → List NormFace
  | _, [] => []
  | idx, f :: rest => normalizeFace idx f :: normalizeFaces (idx + 1) rest

/-- The normalized response paired with `total_faces := faces.length`. -/
structure NormResponse where
  faces : List NormFace
  total_faces : Nat

/-- The normalization step of `identifyMultiFacesGrouped`: take `raw.faces`
if it is an array (else `[]`), normalize each entry, and report
`total_faces` as the length of the normalized list. -/
def normalizeResponse (raw : Json) : NormResponse :=
  let rawFaces := match raw.getField "faces" with
    | some (Json.arr fs) => fs
    | _ => []
  let faces := normalizeFaces 0 rawFaces
  ⟨faces, faces.length⟩

/-- Outcome of the identification `fetch`: `ok`/`status` of the HTTP
response and its parsed JSON body. -/
structure HttpResp where
  ok : Bool
  status : Nat
  json : Json

/-- `identifyMultiFacesGrouped` from the `fetch` on: a rejected fetch
propagates; a non-ok response throws
`Face identification failed: <status>`; otherwise the body is normalized. -/
def identifyMultiFacesGrouped (resp : Except String HttpResp) :
    Except String NormResponse :=
  match resp with
  | Except.error e => Except.error e
  | Except.ok r =>
    if r.ok = false then
      Except.error ("Face identification failed: " ++ toString r.status)
    else
      Except.ok (normalizeResponse r.json)

/-- The user ids of the matches of `ms` that pass the threshold filter, in
order. -/
def matchedUserIds (threshold : ℚ) (ms : List FaceMatch) : List Int :=
  (ms.filter fun m => decide (threshold ≤ m.similarity)).map FaceMatch.user_id

/-- All similarity scores reported for user `u` across all faces, in order. -/
def userSimilarities (u : Int) (faces : List MultiFaceResult) : List ℚ :=
  (((faces.map MultiFaceResult.«matches»).flatten).filter
    fun m => decide (m.user_id = u)).map FaceMatch.similarity

theorem mem_insertUnique (l : List Int) (x y : Int) :
    y ∈ insertUnique l x ↔ y ∈ l ∨ y = x := by
  unfold insertUnique
  by_cases h : x ∈ l
  · simp only [if_pos h]
    exact ⟨Or.inl, fun hy => hy.elim id fun hyx => hyx ▸ h⟩
  · simp only [if_neg h, List.mem_append, List.mem_singleton]

theorem nodup_insertUnique (l : List Int) (x : Int) (h : l.Nodup) :
    (insertUnique l x).Nodup := by
  unfold insertUnique
  by_cases hx : x ∈ l
  · simpa only [if_pos hx] using h
  · simp only [if_neg hx]
    simp [List.nodup_append, h, hx]

theorem mem_foldl_insertUnique (xs : List Int) :
    ∀ (acc : List Int) (u : Int),
      u ∈ xs.foldl insertUnique acc ↔ u ∈ acc ∨ u ∈ xs := by
  induction xs with
  | nil => intro acc u; simp
  | cons x rest ih =>
    intro acc u
    rw [List.foldl_cons, ih, mem_insertUnique]
    simp only [List.mem_cons]
    tauto

theorem nodup_foldl_insertUnique (xs : List Int) :
    ∀ acc : List Int, acc.Nodup → (xs.foldl insertUnique acc).Nodup := by
  induction xs with
  | nil => intro acc h; simpa using h
  | cons x rest ih =>
    intro acc h
    rw [List.foldl_cons]
    exact ih _ (nodup_insertUnique acc x h)

theorem addMatches_eq_foldl (threshold : ℚ) (ms : List FaceMatch) :
    ∀ acc : List Int,
      addMatches threshold acc ms = (matchedUserIds threshold ms).foldl insertUnique acc := by
  induction ms with
  | nil => intro acc; rfl
  | cons m rest ih =>
    intro acc
    show addMatches threshold
        (if threshold ≤ m.similarity then insertUnique acc m.user_id else acc) rest = _
    by_cases hm : threshold ≤ m.similarity
    · rw [if_pos hm, ih]
      simp [matchedUserIds, List.filter_cons, hm]
    · rw [if_neg hm, ih]
      simp [matchedUserIds, List.filter_cons, hm]

theorem computeTaggedUsers_eq_foldl (threshold : ℚ) (faces : List MultiFaceResult) :
    computeTaggedUsers faces threshold =
      (matchedUserIds threshold ((faces.map MultiFaceResult.«matches»).flatten)).foldl
        insertUnique [] := by
  suffices h : ∀ (fs : List MultiFaceResult) (acc : List Int),
      fs.foldl (fun a face => addMatches threshold a face.«matches») acc =
        (matchedUserIds threshold ((fs.map MultiFaceResult.«matches»).flatten)).foldl
          insertUnique acc by
    exact h faces []
  intro fs
  induction fs with
  | nil => intro acc; rfl
  | cons f rest ih =>
    intro acc
    rw [List.foldl_cons, ih, addMatches_eq_foldl]
    simp only [List.map_cons, List.flatten_cons, matchedUserIds, List.filter_append,
      List.map_append, List.foldl_append]

theorem computeTaggedUsers_nodup (faces : List MultiFaceResult) (threshold : ℚ) :
    (computeTaggedUsers faces threshold).Nodup := by
  rw [computeTaggedUsers_eq_foldl]
  exact nodup_foldl_insertUnique _ _ List.nodup_nil

theorem mem_computeTaggedUsers (faces : List MultiFaceResult) (threshold : ℚ) (u : Int) :
    u ∈ computeTaggedUsers faces threshold ↔
      ∃ f ∈ faces, ∃ m ∈ f.«matches», m.user_id = u ∧ threshold ≤ m.similarity := by
  rw [computeTaggedUsers_eq_foldl, mem_foldl_insertUnique]
  simp only [List.not_mem_nil, false_or, matchedUserIds, List.mem_map, List.mem_filter,
    List.mem_flatten, decide_eq_true_eq]
  constructor
  · rintro ⟨m, ⟨⟨l, ⟨f, hf, rfl⟩, hm⟩, hs⟩, rfl⟩
    exact ⟨f, hf, m, hm, rfl, hs⟩
  · rintro ⟨f, hf, m, hm, rfl, hs⟩
    exact ⟨m, ⟨⟨f.«matches», ⟨f, hf, rfl⟩, hm⟩, hs⟩, rfl⟩

instance : Std.Antisymm (fun x1 x2 : ℚ => x1 ≤ x2) :=
  ⟨fun h h' => le_antisymm h h'⟩

theorem max?_some_of_mem {l : List ℚ} {s : ℚ} (h : s ∈ l) : ∃ t, l.max? = some t := by
  cases hl : l.max? with
  | some t => exact ⟨t, rfl⟩
  | none =>
    rw [List.max?_eq_none_iff] at hl
    subst hl
    exact absurd h (List.not_mem_nil s)

theorem exists_threshold_match_iff_max
    (faces : List MultiFaceResult) (threshold : ℚ) (u : Int) :
    (∃ f ∈ faces, ∃ m ∈ f.«matches», m.user_id = u ∧ threshold ≤ m.similarity) ↔
      ∃ s, (userSimilarities u faces).max? = some s ∧ threshold ≤ s := by
  have hmem : ∀ q : ℚ, q ∈ userSimilarities u faces ↔
      ∃ f ∈ faces, ∃ m ∈ f.«matches», m.user_id = u ∧ m.similarity = q := by
    intro q
    simp only [userSimilarities, List.mem_map, List.mem_filter, List.mem_flatten,
      decide_eq_true_eq]
    constructor
    · rintro ⟨m, ⟨⟨l, ⟨f, hf, rfl⟩, hm⟩, hu⟩, rfl⟩
      exact ⟨f, hf, m, hm, hu, rfl⟩
    · rintro ⟨f, hf, m, hm, hu, rfl⟩
      exact ⟨m, ⟨⟨f.«matches», ⟨f, hf, rfl⟩, hm⟩, hu⟩, rfl⟩
  constructor
  · rintro ⟨f, hf, m, hm, hu, hs⟩
    have hq : m.similarity ∈ userSimilarities u faces :=
      (hmem m.similarity).2 ⟨f, hf, m, hm, hu, rfl⟩
    obtain ⟨t, ht⟩ := max?_some_of_mem hq
    have hspec := (List.max?_eq_some_iff (fun a => le_refl a) (fun a b => max_choice a b)
      (fun a b c => max_le_iff)).1 ht
    exact ⟨t, ht, le_trans hs (hspec.2 _ hq)⟩
  · rintro ⟨s, hs, hts⟩
    have hspec := (List.max?_eq_some_iff (fun a => le_refl a) (fun a b => max_choice a b)
      (fun a b c => max_le_iff)).1 hs
    obtain ⟨f, hf, m, hm, hu, hsim⟩ := (hmem s).1 hspec.1
    exact ⟨f, hf, m, hm, hu, hsim ▸ hts⟩

/-- The per-image outcome of the batch loop body: `some` of the result when
the image's pipeline succeeded, `none` when its error was caught. -/
def resultOption (options : UploadPhotoOptions) (env : Env) : Option UploadPhotoResult :=
  match (uploadAndTagPhoto env options).1 with
  | Except.ok r => some r
  | Except.error _ => none

theorem uploadAndTagPhotoBatch_eq_filterMap (options : UploadPhotoOptions) :
    ∀ envs : List Env,
      uploadAndTagPhotoBatch envs options = envs.filterMap (resultOption options) := by
  suffices h : ∀ (envs : List Env) (acc : List UploadPhotoResult),
      envs.foldl
        (fun results env =>
          match (uploadAndTagPhoto env options).1 with
          | Except.ok r => results ++ [r]
          | Except.error _ => results)
        acc = acc ++ envs.filterMap (resultOption options) by
    intro envs
    simpa using h envs []
  intro envs
  induction envs with
  | nil => intro acc; simp
  | cons e rest ih =>
    intro acc
    rw [List.foldl_cons, List.filterMap_cons]
    rcases h : (uploadAndTagPhoto e options).1 with err | r
    · simp only [resultOption, h]
      exact ih acc
    · simp only [resultOption, h]
      rw [ih]
      simp

theorem filterMap_length_of_all_some {α β : Type} (g : α → Option β) :
    ∀ l : List α, (∀ a ∈ l, ∃ b, g a = some b) → (l.filterMap g).length = l.length := by
  intro l
  induction l with
  | nil => intro _; rfl
  | cons a rest ih =>
    intro h
    obtain ⟨b, hb⟩ := h a (List.mem_cons_self a rest)
    rw [List.filterMap_cons, hb]
    simp only [List.length_cons]
    rw [ih fun x hx => h x (List.mem_cons_of_mem a hx)]

theorem length_normalizeFaces : ∀ (k : Nat) (fs : List Json),
    (normalizeFaces k fs).length = fs.length := by
  intro k fs
  induction fs generalizing k with
  | nil => rfl
  | cons f rest ih => simp [normalizeFaces, ih]

theorem face_index_normalizeFaces :
    ∀ (fs : List Json) (k i : Nat) (h : i < (normalizeFaces k fs).length),
      ((normalizeFaces k fs).get ⟨i, h⟩).face_index = k + i := by
  intro fs
  induction fs with
  | nil => intro k i h; simp [normalizeFaces] at h
  | cons f rest ih =>
    intro k i h
    cases i with
    | zero => rfl
    | succ j =>
      have h' : j < (normalizeFaces (k + 1) rest).length := by
        have hlen := h
        rw [show normalizeFaces k (f :: rest) = normalizeFace k f :: normalizeFaces (k + 1) rest
          from rfl, List.length_cons] at hlen
        omega
      calc ((normalizeFaces k (f :: rest)).get ⟨j + 1, h⟩).face_index
          = ((normalizeFaces (k + 1) rest).get ⟨j, h'⟩).face_index := rfl
        _ = (k + 1) + j := ih (k + 1) j h'
        _ = k + (j + 1) := by omega

/-- Claim C1: for every identification response and configured similarity
threshold (default 0.6), the tagged-user list computed by
`uploadAndTagPhoto` contains each user id at most once, and contains
exactly those user ids whose maximum similarity across all detected faces
is at least the threshold. -/
theorem c1_tagged_users_dedup_threshold
    (env : Env) (options : UploadPhotoOptions) (url : String)
    (media : MediaData) (resp : IdentifyMultiResponse)
    (hup : uploadStep env = Except.ok url)
    (hins : env.insertResult = Except.ok media)
    (hid : env.identifyResult = Except.ok resp) :
    ∃ r, (uploadAndTagPhoto env options).1 = Except.ok r ∧
      r.taggedUsers.Nodup ∧
      (∀ u : Int, u ∈ r.taggedUsers ↔
        ∃ s, (userSimilarities u resp.faces).max? = some s ∧
          resolvedThreshold options ≤ s) ∧
      (options.faceRecognitionOptions = none → resolvedThreshold options = 3 / 5) := by
  refine ⟨⟨media.media_id, url,
    computeTaggedUsers resp.faces (resolvedThreshold options), resp.total_faces⟩,
    ?_, ?_, ?_, ?_⟩
  · simp [uploadAndTagPhoto, hup, hins, hid]
  · exact computeTaggedUsers_nodup _ _
  · intro u
    exact (mem_computeTaggedUsers _ _ _).trans (exists_threshold_match_iff_max _ _ _)
  · intro h
    simp [resolvedThreshold, h]

/-- Witness for C1 at a concrete environment: two faces, user 7 matched at
similarity 1 and 2 against a configured threshold of 1, user 8 at 0. -/
theorem c1_tagged_users_dedup_threshold_witness :
    uploadStep ⟨Except.ok ⟨true, "https://blob/a.jpg"⟩, Except.error "unused",
        Except.ok ⟨"m1"⟩,
        Except.ok ⟨[⟨0, [], 1, [⟨7, 1, none⟩, ⟨8, 0, none⟩]⟩, ⟨1, [], 1, [⟨7, 2, none⟩]⟩], 2⟩,
        Except.ok ()⟩ = Except.ok "https://blob/a.jpg" ∧
    (∃ r, (uploadAndTagPhoto
        ⟨Except.ok ⟨true, "https://blob/a.jpg"⟩, Except.error "unused",
         Except.ok ⟨"m1"⟩,
         Except.ok ⟨[⟨0, [], 1, [⟨7, 1, none⟩, ⟨8, 0, none⟩]⟩, ⟨1, [], 1, [⟨7, 2, none⟩]⟩], 2⟩,
         Except.ok ()⟩
        ⟨1, 2, none, none, some ⟨some 1, none, none, none⟩⟩).1 = Except.ok r ∧
      r.taggedUsers.Nodup ∧
      (∀ u : Int, u ∈ r.taggedUsers ↔
        ∃ s, (userSimilarities u
            [⟨0, [], 1, [⟨7, 1, none⟩, ⟨8, 0, none⟩]⟩, ⟨1, [], 1, [⟨7, 2, none⟩]⟩]).max? = some s ∧
          resolvedThreshold ⟨1, 2, none, none, some ⟨some 1, none, none, none⟩⟩ ≤ s) ∧
      (UploadPhotoOptions.faceRecognitionOptions
          ⟨1, 2, none, none, some ⟨some 1, none, none, none⟩⟩ = none →
        resolvedThreshold ⟨1, 2, none, none, some ⟨some 1, none, none, none⟩⟩ = 3 / 5)) :=
  ⟨rfl, c1_tagged_users_dedup_threshold _ _ "https://blob/a.jpg" ⟨"m1"⟩
    ⟨[⟨0, [], 1, [⟨7, 1, none⟩, ⟨8, 0, none⟩]⟩, ⟨1, [], 1, [⟨7, 2, none⟩]⟩], 2⟩ rfl rfl rfl⟩

/-- Claim C2: when blob upload and media insert succeed but face
identification fails, the operation still succeeds with an empty
tagged-user list and a face count of zero, and no tag update is sent. -/
theorem c2_face_failure_nonfatal
    (env : Env) (options : UploadPhotoOptions) (url : String)
    (media : MediaData) (e : String)
    (hup : uploadStep env = Except.ok url)
    (hins : env.insertResult = Except.ok media)
    (hid : env.identifyResult = Except.error e) :
    (uploadAndTagPhoto env options).1 = Except.ok ⟨media.media_id, url, [], 0⟩ ∧
    ((uploadAndTagPhoto env options).2).updateSent = none := by
  constructor <;> simp [uploadAndTagPhoto, hup, hins, hid]

/-- Witness for C2 at a concrete environment whose identification call
throws. -/
theorem c2_face_failure_nonfatal_witness :
    (uploadAndTagPhoto
        ⟨Except.ok ⟨true, "https://blob/b.jpg"⟩, Except.error "unused",
         Except.ok ⟨"m2"⟩, Except.error "identify down", Except.ok ()⟩
        ⟨1, 2, none, none, none⟩).1 = Except.ok ⟨"m2", "https://blob/b.jpg", [], 0⟩ ∧
    ((uploadAndTagPhoto
        ⟨Except.ok ⟨true, "https://blob/b.jpg"⟩, Except.error "unused",
         Except.ok ⟨"m2"⟩, Except.error "identify down", Except.ok ()⟩
        ⟨1, 2, none, none, none⟩).2).updateSent = none :=
  c2_face_failure_nonfatal _ _ "https://blob/b.jpg" ⟨"m2"⟩ "identify down" rfl rfl rfl

/-- Claim C3: if the blob upload step fails, the whole operation fails with
that error, no insert is attempted and no media record is created. -/
theorem c3_upload_failure_aborts
    (env : Env) (options : UploadPhotoOptions) (e : String)
    (h : uploadStep env = Except.error e) :
    uploadAndTagPhoto env options = (Except.error e, ⟨none, false, none⟩) := by
  simp [uploadAndTagPhoto, h]

/-- Witness for C3 at a concrete environment whose proxy upload throws. -/
theorem c3_upload_failure_aborts_witness :
    uploadAndTagPhoto
        ⟨Except.error "network down", Except.error "unused", Except.ok ⟨"m3"⟩,
         Except.ok ⟨[], 0⟩, Except.ok ()⟩
        ⟨1, 2, none, none, none⟩ = (Except.error "network down", ⟨none, false, none⟩) :=
  c3_upload_failure_aborts _ _ "network down" rfl

/-- Claim C4: a tag update is sent only when the deduplicated tag set is
non-empty; the update's own outcome never changes what the operation
returns, and in particular a failing update still leaves a successful
result. -/
theorem c4_update_skipped_and_nonfatal (env : Env) (options : UploadPhotoOptions) :
    (∀ t, ((uploadAndTagPhoto env options).2).updateSent = some t → t ≠ []) ∧
    (∀ u₁ u₂ : Except String Unit,
      uploadAndTagPhoto { env with updateResult := u₁ } options =
        uploadAndTagPhoto { env with updateResult := u₂ } options) ∧
    (∀ (url : String) (media : MediaData) (resp : IdentifyMultiResponse) (e : String),
      uploadStep env = Except.ok url →
      env.insertResult = Except.ok media →
      env.identifyResult = Except.ok resp →
      env.updateResult = Except.error e →
      (uploadAndTagPhoto env options).1 =
        Except.ok ⟨media.media_id, url,
          computeTaggedUsers resp.faces (resolvedThreshold options),
          resp.total_faces⟩) := by
  refine ⟨?_, ?_, ?_⟩
  · intro t ht
    rcases h1 : uploadStep env with e1 | url
    · simp [uploadAndTagPhoto, h1] at ht
    · rcases h2 : env.insertResult with e2 | media
      · simp [uploadAndTagPhoto, h1, h2] at ht
      · rcases h3 : env.identifyResult with e3 | resp
        · simp [uploadAndTagPhoto, h1, h2, h3] at ht
        · simp only [uploadAndTagPhoto, h1, h2, h3] at ht
          split at ht
          · rename_i hpos
            cases ht
            exact List.ne_nil_of_length_pos hpos
          · cases ht
  · intro u₁ u₂
    rcases env with ⟨p, d, i, idf, u⟩
    rfl
  · intro url media resp e hup hins hid _
    simp [uploadAndTagPhoto, hup, hins, hid]

/-- Witness for C4 at a concrete environment where one user passes the
threshold and the tag update fails. -/
theorem c4_update_skipped_and_nonfatal_witness :
    ([7] : List Int) ≠ [] ∧
    uploadAndTagPhoto
        ⟨Except.ok ⟨true, "https://blob/c.jpg"⟩, Except.error "unused", Except.ok ⟨"m4"⟩,
         Except.ok ⟨[⟨0, [], 1, [⟨7, 1, none⟩]⟩], 1⟩, Except.error "update down"⟩
        ⟨1, 2, none, none, some ⟨some 1, none, none, none⟩⟩ =
      uploadAndTagPhoto
        ⟨Except.ok ⟨true, "https://blob/c.jpg"⟩, Except.error "unused", Except.ok ⟨"m4"⟩,
         Except.ok ⟨[⟨0, [], 1, [⟨7, 1, none⟩]⟩], 1⟩, Except.ok ()⟩
        ⟨1, 2, none, none, some ⟨some 1, none, none, none⟩⟩ ∧
    (uploadAndTagPhoto
        ⟨Except.ok ⟨true, "https://blob/c.jpg"⟩, Except.error "unused", Except.ok ⟨"m4"⟩,
         Except.ok ⟨[⟨0, [], 1, [⟨7, 1, none⟩]⟩], 1⟩, Except.error "update down"⟩
        ⟨1, 2, none, none, some ⟨some 1, none, none, none⟩⟩).1 =
      Except.ok ⟨"m4", "https://blob/c.jpg",
        computeTaggedUsers [⟨0, [], 1, [⟨7, 1, none⟩]⟩]
          (resolvedThreshold ⟨1, 2, none, none, some ⟨some 1, none, none, none⟩⟩), 1⟩ :=
  ⟨(c4_update_skipped_and_nonfatal
      ⟨Except.ok ⟨true, "https://blob/c.jpg"⟩, Except.error "unused", Except.ok ⟨"m4"⟩,
       Except.ok ⟨[⟨0, [], 1, [⟨7, 1, none⟩]⟩], 1⟩, Except.error "update down"⟩
      ⟨1, 2, none, none, some ⟨some 1, none, none, none⟩⟩).1 [7] rfl,
   (c4_update_skipped_and_nonfatal
      ⟨Except.ok ⟨true, "https://blob/c.jpg"⟩, Except.error "unused", Except.ok ⟨"m4"⟩,
       Except.ok ⟨[⟨0, [], 1, [⟨7, 1, none⟩]⟩], 1⟩, Except.ok ()⟩
      ⟨1, 2, none, none, some ⟨some 1, none, none, none⟩⟩).2.1
      (Except.error "update down") (Except.ok ()),
   (c4_update_skipped_and_nonfatal
      ⟨Except.ok ⟨true, "https://blob/c.jpg"⟩, Except.error "unused", Except.ok ⟨"m4"⟩,
       Except.ok ⟨[⟨0, [], 1, [⟨7, 1, none⟩]⟩], 1⟩, Except.error "update down"⟩
      ⟨1, 2, none, none, some ⟨some 1, none, none, none⟩⟩).2.2
      "https://blob/c.jpg" ⟨"m4"⟩ ⟨[⟨0, [], 1, [⟨7, 1, none⟩]⟩], 1⟩ "update down"
      rfl rfl rfl rfl⟩

/-- Claim C5: in a batch where exactly one image fails and the rest
succeed, the result list is the concatenation of the other images'
results, in order, of length N − 1; the failed image contributes nothing
and does not affect the others. -/
theorem c5_batch_excludes_failed
    (l₁ l₂ : List Env) (envK : Env) (options : UploadPhotoOptions)
    (hK : ∃ e, (uploadAndTagPhoto envK options).1 = Except.error e)
    (h₁ : ∀ env ∈ l₁, ∃ r, (uploadAndTagPhoto env options).1 = Except.ok r)
    (h₂ : ∀ env ∈ l₂, ∃ r, (uploadAndTagPhoto env options).1 = Except.ok r) :
    (uploadAndTagPhotoBatch (l₁ ++ envK :: l₂) options).length =
      (l₁ ++ envK :: l₂).length - 1 ∧
    uploadAndTagPhotoBatch (l₁ ++ envK :: l₂) options =
      uploadAndTagPhotoBatch l₁ options ++ uploadAndTagPhotoBatch l₂ options ∧
    uploadAndTagPhotoBatch (l₁ ++ envK :: l₂) options =
      uploadAndTagPhotoBatch (l₁ ++ l₂) options := by
  obtain ⟨e, he⟩ := hK
  have hKnone : resultOption options envK = none := by
    simp [resultOption, he]
  have hsome : ∀ env', (∃ r, (uploadAndTagPhoto env' options).1 = Except.ok r) →
      ∃ r, resultOption options env' = some r := by
    rintro env' ⟨r, hr⟩
    exact ⟨r, by simp [resultOption, hr]⟩
  have hsplit : uploadAndTagPhotoBatch (l₁ ++ envK :: l₂) options =
      uploadAndTagPhotoBatch l₁ options ++ uploadAndTagPhotoBatch l₂ options := by
    simp only [uploadAndTagPhotoBatch_eq_filterMap, List.filterMap_append,
      List.filterMap_cons, hKnone]
  have hlen₁ : (uploadAndTagPhotoBatch l₁ options).length = l₁.length := by
    rw [uploadAndTagPhotoBatch_eq_filterMap]
    exact filterMap_length_of_all_some _ l₁ fun a ha => hsome a (h₁ a ha)
  have hlen₂ : (uploadAndTagPhotoBatch l₂ options).length = l₂.length := by
    rw [uploadAndTagPhotoBatch_eq_filterMap]
    exact filterMap_length_of_all_some _ l₂ fun a ha => hsome a (h₂ a ha)
  refine ⟨?_, hsplit, ?_⟩
  · rw [hsplit]
    simp only [List.length_append, List.length_cons, hlen₁, hlen₂]
    omega
  · rw [hsplit]
    simp only [uploadAndTagPhotoBatch_eq_filterMap, List.filterMap_append]

/-- Witness for C5: a three-image batch whose middle image fails. -/
theorem c5_batch_excludes_failed_witness :
    (uploadAndTagPhotoBatch
        [⟨Except.ok ⟨true, "https://blob/1.jpg"⟩, Except.error "unused", Except.ok ⟨"m5"⟩,
          Except.ok ⟨[], 0⟩, Except.ok ()⟩,
         ⟨Except.error "network down", Except.error "unused", Except.ok ⟨"m6"⟩,
          Except.ok ⟨[], 0⟩, Except.ok ()⟩,
         ⟨Except.ok ⟨true, "https://blob/2.jpg"⟩, Except.error "unused", Except.ok ⟨"m7"⟩,
          Except.ok ⟨[], 0⟩, Except.ok ()⟩]
        ⟨1, 2, none, none, none⟩).length = 2 ∧
    uploadAndTagPhotoBatch
        [⟨Except.ok ⟨true, "https://blob/1.jpg"⟩, Except.error "unused", Except.ok ⟨"m5"⟩,
          Except.ok ⟨[], 0⟩, Except.ok ()⟩,
         ⟨Except.error "network down", Except.error "unused", Except.ok ⟨"m6"⟩,
          Except.ok ⟨[], 0⟩, Except.ok ()⟩,
         ⟨Except.ok ⟨true, "https://blob/2.jpg"⟩, Except.error "unused", Except.ok ⟨"m7"⟩,
          Except.ok ⟨[], 0⟩, Except.ok ()⟩]
        ⟨1, 2, none, none, none⟩ =
      [⟨"m5", "https://blob/1.jpg", [], 0⟩, ⟨"m7", "https://blob/2.jpg", [], 0⟩] := by
  have h := c5_batch_excludes_failed
    [⟨Except.ok ⟨true, "https://blob/1.jpg"⟩, Except.error "unused", Except.ok ⟨"m5"⟩,
      Except.ok ⟨[], 0⟩, Except.ok ()⟩]
    [⟨Except.ok ⟨true, "https://blob/2.jpg"⟩, Except.error "unused", Except.ok ⟨"m7"⟩,
      Except.ok ⟨[], 0⟩, Except.ok ()⟩]
    ⟨Except.error "network down", Except.error "unused", Except.ok ⟨"m6"⟩,
      Except.ok ⟨[], 0⟩, Except.ok ()⟩
    ⟨1, 2, none, none, none⟩
    ⟨"network down", rfl⟩
    (by intro env henv; rw [List.mem_singleton] at henv; subst henv
        exact ⟨⟨"m5", "https://blob/1.jpg", [], 0⟩, rfl⟩)
    (by intro env henv; rw [List.mem_singleton] at henv; subst henv
        exact ⟨⟨"m7", "https://blob/2.jpg", [], 0⟩, rfl⟩)
  exact ⟨h.1, h.2.1⟩

theorem getField_normalizeMatchFromResult_user_id (m : Json) :
    (normalizeMatchFromResult m).getField "user_id" = some (m.getD "user_id") := rfl

theorem getField_normalizeMatchFromResult_similarity (m : Json) :
    (normalizeMatchFromResult m).getField "similarity" = some (m.getD "similarity") := rfl

/-- Claim C6: the normalization in `identifyMultiFacesGrouped` tolerates
both response shapes — per-face `results` (reshaped into
user_id/similarity objects) and already-normalized `matches` (passed
through) — always yields faces carrying their index, box, probability and
matches, and turns a no-face-detected response into an empty face list on
a successful result. -/
theorem c6_normalization_tolerates_both_shapes :
    (∀ raw : Json,
      (normalizeResponse raw).total_faces = (normalizeResponse raw).faces.length) ∧
    (∀ (raw : Json) (i : Nat) (h : i < (normalizeResponse raw).faces.length),
      ((normalizeResponse raw).faces.get ⟨i, h⟩).face_index = i) ∧
    (∀ (idx : Nat) (fields : List (String × Json)) (ms : List Json),
      lookupField fields "results" = none →
      lookupField fields "matches" = some (Json.arr ms) →
      (normalizeFace idx (Json.obj fields)).«matches» = ms) ∧
    (∀ (idx : Nat) (fields : List (String × Json)) (rs : List Json),
      lookupField fields "results" = some (Json.arr rs) →
      (normalizeFace idx (Json.obj fields)).«matches» = rs.map normalizeMatchFromResult ∧
      ∀ m ∈ (normalizeFace idx (Json.obj fields)).«matches»,
        (∃ v, m.getField "user_id" = some v) ∧ ∃ v, m.getField "similarity" = some v) ∧
    (∀ st : Nat,
      identifyMultiFacesGrouped (Except.ok ⟨true, st,
          Json.obj [("ok", Json.bool false), ("reason", Json.str "no_face_detected")]⟩) =
        Except.ok ⟨[], 0⟩) ∧
    (∀ t : ℚ, computeTaggedUsers [] t = []) := by
  refine ⟨fun raw => rfl, ?_, ?_, ?_, fun st => rfl, fun t => rfl⟩
  · intro raw i h
    simpa using face_index_normalizeFaces _ 0 i h
  · intro idx fields ms h1 h2
    simp [normalizeFace, Json.getField, h1, h2]
  · intro idx fields rs h
    refine ⟨by simp [normalizeFace, Json.getField, h], ?_⟩
    intro m hm
    rw [show (normalizeFace idx (Json.obj fields)).«matches» = rs.map normalizeMatchFromResult
      by simp [normalizeFace, Json.getField, h]] at hm
    obtain ⟨m', _, rfl⟩ := List.mem_map.1 hm
    exact ⟨⟨m'.getD "user_id", getField_normalizeMatchFromResult_user_id m'⟩,
      ⟨m'.getD "similarity", getField_normalizeMatchFromResult_similarity m'⟩⟩

/-- Witness for C6 at a concrete raw response mixing both face shapes. -/
theorem c6_normalization_tolerates_both_shapes_witness :
    (normalizeResponse (Json.obj [("faces", Json.arr
        [Json.obj [("prob", Json.num 1),
            ("results", Json.arr [Json.obj [("user_id", Json.num 7),
              ("similarity", Json.num 1)]])],
         Json.obj [("matches", Json.arr [Json.obj [("user_id", Json.num 8),
            ("similarity", Json.num 0)]])]])])).total_faces =
      (normalizeResponse (Json.obj [("faces", Json.arr
        [Json.obj [("prob", Json.num 1),
            ("results", Json.arr [Json.obj [("user_id", Json.num 7),
              ("similarity", Json.num 1)]])],
         Json.obj [("matches", Json.arr [Json.obj [("user_id", Json.num 8),
            ("similarity", Json.num 0)]])]])])).faces.length ∧
    (normalizeFace 1 (Json.obj [("matches", Json.arr [Json.obj [("user_id", Json.num 8),
        ("similarity", Json.num 0)]])])).«matches» =
      [Json.obj [("user_id", Json.num 8), ("similarity", Json.num 0)]] ∧
    (normalizeFace 0 (Json.obj [("prob", Json.num 1),
        ("results", Json.arr [Json.obj [("user_id", Json.num 7),
          ("similarity", Json.num 1)]])])).«matches» =
      [Json.obj [("user_id", Json.num 7), ("similarity", Json.num 1)]].map
        normalizeMatchFromResult ∧
    identifyMultiFacesGrouped (Except.ok ⟨true, 200,
        Json.obj [("ok", Json.bool false), ("reason", Json.str "no_face_detected")]⟩) =
      Except.ok ⟨[], 0⟩ ∧
    computeTaggedUsers [] 1 = [] :=
  ⟨c6_normalization_tolerates_both_shapes.1 _,
   c6_normalization_tolerates_both_shapes.2.2.1 1
     [("matches", Json.arr [Json.obj [("user_id", Json.num 8), ("similarity", Json.num 0)]])]
     [Json.obj [("user_id", Json.num 8), ("similarity", Json.num 0)]] rfl rfl,
   (c6_normalization_tolerates_both_shapes.2.2.2.1 0
     [("prob", Json.num 1), ("results", Json.arr [Json.obj [("user_id", Json.num 7),
        ("similarity", Json.num 1)]])]
     [Json.obj [("user_id", Json.num 7), ("similarity", Json.num 1)]] rfl).1,
   c6_normalization_tolerates_both_shapes.2.2.2.2.1 200,
   c6_normalization_tolerates_both_shapes.2.2.2.2.2 1⟩

/-- Claim C7: a blob transfer succeeds exactly when the storage service
answers HTTP 201; any other status fails the step with an error carrying
the status and response body verbatim. -/
theorem c7_put_succeeds_iff_created
    (resp : PutResponse) (blobUrl blobName localUri : String) :
    ((∃ r, timedPutBlob true resp blobUrl blobName localUri = Except.ok r) ↔
      resp.status = 201) ∧
    (resp.status ≠ 201 →
      timedPutBlob true resp blobUrl blobName localUri =
        Except.error ("Azure upload failed with status " ++ toString resp.status
          ++ ": " ++ resp.body)) ∧
    (resp.status = 201 →
      timedPutBlob true resp blobUrl blobName localUri = Except.ok ⟨blobUrl, blobName⟩) := by
  by_cases h : resp.status = 201
  · refine ⟨⟨fun _ => h, fun _ => ⟨⟨blobUrl, blobName⟩, by simp [timedPutBlob, h]⟩⟩,
      fun hc => absurd h hc, fun _ => by simp [timedPutBlob, h]⟩
  · refine ⟨⟨?_, fun hc => absurd hc h⟩, fun _ => by simp [timedPutBlob, h], fun hc => absurd hc h⟩
    rintro ⟨r, hr⟩
    simp [timedPutBlob, h] at hr

/-- Witness for C7 at statuses 201 and 500. -/
theorem c7_put_succeeds_iff_created_witness :
    timedPutBlob true ⟨201, "created"⟩ "https://blob/d.jpg" "d.jpg" "file:///d.jpg" =
      Except.ok ⟨"https://blob/d.jpg", "d.jpg"⟩ ∧
    timedPutBlob true ⟨500, "server error"⟩ "https://blob/d.jpg" "d.jpg" "file:///d.jpg" =
      Except.error ("Azure upload failed with status " ++ toString (500 : Nat)
        ++ ": " ++ "server error") :=
  ⟨(c7_put_succeeds_iff_created ⟨201, "created"⟩ "https://blob/d.jpg" "d.jpg"
      "file:///d.jpg").2.2 rfl,
   (c7_put_succeeds_iff_created ⟨500, "server error"⟩ "https://blob/d.jpg" "d.jpg"
      "file:///d.jpg").2.1 (by decide)⟩

/-- Claim C8: the normalization and the threshold-filtering steps are
deterministic — identical remote responses yield identical normalized
responses and identical tagged-user lists. -/
theorem c8_identification_deterministic
    (raw₁ raw₂ : Json) (resp₁ resp₂ : IdentifyMultiResponse) (t : ℚ)
    (hraw : raw₁ = raw₂) (hresp : resp₁ = resp₂) :
    normalizeResponse raw₁ = normalizeResponse raw₂ ∧
    computeTaggedUsers resp₁.faces t = computeTaggedUsers resp₂.faces t :=
  ⟨by rw [hraw], by rw [hresp]⟩

/-- Witness for C8 at a concrete response. -/
theorem c8_identification_deterministic_witness :
    normalizeResponse (Json.obj [("faces", Json.arr [])]) =
      normalizeResponse (Json.obj [("faces", Json.arr [])]) ∧
    computeTaggedUsers
        (IdentifyMultiResponse.faces ⟨[⟨0, [], 1, [⟨7, 1, none⟩]⟩], 1⟩) 1 =
      computeTaggedUsers
        (IdentifyMultiResponse.faces ⟨[⟨0, [], 1, [⟨7, 1, none⟩]⟩], 1⟩) 1 :=
  c8_identification_deterministic _ _ ⟨[⟨0, [], 1, [⟨7, 1, none⟩]⟩], 1⟩
    ⟨[⟨0, [], 1, [⟨7, 1, none⟩]⟩], 1⟩ 1 rfl rfl

/-- Claim C9 (evaluation of the code at the failing input): the media
insert payload built by `uploadAndTagPhoto` for options that carry an EXIF
map contains exactly the six columns of the source's object literal — the
EXIF map is not among them. -/
theorem c9_insert_payload_drops_exif :
    insertPayload ⟨1, 2, some "37.77,-122.41", some [("Make", "TestCam")], none⟩
        "https://blob/e.jpg" =
      [("event_id", DbValue.int 1),
       ("file_url", DbValue.str "https://blob/e.jpg"),
       ("file_type", DbValue.str "image"),
       ("location", DbValue.str "37.77,-122.41"),
       ("uploaded_by", DbValue.int 2),
       ("tagged_users", DbValue.intList [])] := rfl

/-- Claim C10: the normalization always reports `total_faces` equal to the
number of normalized faces, and the orchestrator's `faceCount` is the
identification response's `total_faces`, hence the number of faces
whenever the response keeps that invariant — matches or not. -/
theorem c10_face_count_eq_faces_length
    (raw : Json) (env : Env) (options : UploadPhotoOptions)
    (url : String) (media : MediaData) (resp : IdentifyMultiResponse)
    (hup : uploadStep env = Except.ok url)
    (hins : env.insertResult = Except.ok media)
    (hid : env.identifyResult = Except.ok resp)
    (hlen : resp.total_faces = resp.faces.length) :
    (normalizeResponse raw).total_faces = (normalizeResponse raw).faces.length ∧
    ∃ r, (uploadAndTagPhoto env options).1 = Except.ok r ∧
      r.faceCount = resp.faces.length := by
  refine ⟨rfl, ⟨media.media_id, url,
    computeTaggedUsers resp.faces (resolvedThreshold options), resp.total_faces⟩, ?_, hlen⟩
  simp [uploadAndTagPhoto, hup, hins, hid]

/-- Witness for C10 at a concrete environment with one matchless face. -/
theorem c10_face_count_eq_faces_length_witness :
    (normalizeResponse (Json.obj [])).total_faces =
      (normalizeResponse (Json.obj [])).faces.length ∧
    ∃ r, (uploadAndTagPhoto
        ⟨Except.ok ⟨true, "https://blob/f.jpg"⟩, Except.error "unused", Except.ok ⟨"m8"⟩,
         Except.ok ⟨[⟨0, [], 1, []⟩], 1⟩, Except.ok ()⟩
        ⟨1, 2, none, none, none⟩).1 = Except.ok r ∧
      r.faceCount = (IdentifyMultiResponse.faces ⟨[⟨0, [], 1, []⟩], 1⟩).length :=
  c10_face_count_eq_faces_length (Json.obj []) _ _ "https://blob/f.jpg" ⟨"m8"⟩
    ⟨[⟨0, [], 1, []⟩], 1⟩ rfl rfl rfl rfl

end Dumpy
